import Mathlib

/-!
# Verification of the chunkr web upload components

Shallow embedding of the two source files

* `src/apps/web/src/components/Upload/UploadMain.tsx`
* `src/apps/web/src/components/ModelTable/ModelTable.tsx`

The `UploadMain` React component holds five pieces of `useState` state
(`file`, `fileName`, `model`, `isLoading`, `error`); its event handlers
(`handleFileUpload`, `handleFileRemove`, `handleModelToggle`, `handleRun`)
are embedded as pure functions on an explicit state record.  The
asynchronous `handleRun` is embedded as a function from the state and the
result of the awaited `uploadFileStep` service call to the ordered list of
primitive effects the handler performs (state setters, console output, the
service call itself, navigation), so that intermediate states - in
particular the state in force while the service call is awaited - are
recoverable by replaying prefixes of the effect list.
-/

namespace Chunkr

/-- The `Model` enumeration from `upload.model` (values used in
`UploadMain.tsx`): the two processing tiers. -/
inductive Model where
  | Fast
  | HighQuality
deriving DecidableEq, Repr

/-- A user-selected file.  `UploadMain.tsx` only ever reads the `name`
property of the `File` object (in `handleFileUpload`); the rest of the
browser `File` is opaque to this component, so the embedding carries the
name. -/
structure SelectedFile where
  name : String
deriving DecidableEq, Repr

/-- The `UploadForm` payload built in `handleRun`: the selected file plus
the selected model. -/
structure UploadForm where
  file : SelectedFile
  model : Model
deriving DecidableEq, Repr

/-- The response of the `uploadFileStep` service on success; `handleRun`
reads its `task_id` field. -/
structure TaskResponse where
  task_id : String
deriving DecidableEq, Repr

/-- The outcome of the awaited `uploadFileStep` call: it either resolves
with a `TaskResponse` or rejects (the rejection reason is opaque - the
code only logs it). -/
inductive ServiceResult where
  | ok (resp : TaskResponse)
  | err (reason : String)
deriving DecidableEq, Repr

/-- The `useState` state of the `UploadMain` component:
`file`, `fileName`, `model`, `isLoading`, `error`. -/
structure ComponentState where
  file : Option SelectedFile
  fileName : String
  model : Model
  isLoading : Bool
  error : Option String
deriving DecidableEq, Repr

/-- The initial state of `UploadMain`:
`useState<File | null>(null)`, `useState("")`, `useState(Model.Fast)`,
`useState(false)`, `useState<string | null>(null)`. -/
def initialState : ComponentState :=
  { file := none, fileName := "", model := Model.Fast,
    isLoading := false, error := none }

/-- `handleFileUpload` from `UploadMain.tsx`:
`setFile(uploadedFile); setFileName(uploadedFile.name)`. -/
def handleFileUpload (s : ComponentState) (uploadedFile : SelectedFile) :
    ComponentState :=
  { s with file := some uploadedFile, fileName := uploadedFile.name }

/-- `handleFileRemove` from `UploadMain.tsx`:
`setFile(null); setFileName("")`. -/
def handleFileRemove (s : ComponentState) : ComponentState :=
  { s with file := none, fileName := "" }

/-- `handleModelToggle` from `UploadMain.tsx`:
`setModel(model === Model.Fast ? Model.HighQuality : Model.Fast)`. -/
def handleModelToggle (s : ComponentState) : ComponentState :=
  { s with
    model := if s.model = Model.Fast then Model.HighQuality else Model.Fast }

/-- The primitive effects `handleRun` performs, in program order: the
`setIsLoading`/`setError` state setters, `console.log`/`console.error`
output, the `uploadFileStep(payload)` service call, and `navigate`. -/
inductive Effect where
  | setIsLoading (b : Bool)
  | setError (e : Option String)
  | consoleLog (msg : String)
  | consoleError (msg : String)
  | callService (payload : UploadForm)
  | navigate (path : String)
deriving DecidableEq, Repr

/-- `handleRun` from `UploadMain.tsx`, as the ordered list of effects the
handler performs given the component state at click time and the result of
the awaited `uploadFileStep` call:

* `if (!file) { console.error("No file uploaded"); return; }`
* `setIsLoading(true); setError(null);`
* `const payload = { file, model }; console.log("Component Payload:", payload);`
* `try { const taskResponse = await uploadFileStep(payload);`
* `  console.log("Task Response:", taskResponse);`
* `  navigate(` followed by the template `/status?taskId=` and `taskResponse.task_id); }`
* `catch (error) { console.error("Error uploading file:", error);`
* `  setError("Failed to upload file. Please try again later."); }`
* `finally { setIsLoading(false); }` -/
def handleRun (s : ComponentState) (result : ServiceResult) : List Effect :=
  match s.file with
  | none => [Effect.consoleError "No file uploaded"]
  | some f =>
    [Effect.setIsLoading true,
     Effect.setError none,
     Effect.consoleLog "Component Payload:",
     Effect.callService { file := f, model := s.model }] ++
    (match result with
     | ServiceResult.ok resp =>
        [Effect.consoleLog "Task Response:",
         Effect.navigate ("/status?taskId=" ++ resp.task_id)]
     | ServiceResult.err reason =>
        [Effect.consoleError ("Error uploading file: " ++ reason),
         Effect.setError (some "Failed to upload file. Please try again later.")]) ++
    [Effect.setIsLoading false]

/-- How each effect acts on the component state: the two `useState`
setters update their field; console output, the service call and
navigation do not change the component's own state. -/
def applyEffect (s : ComponentState) : Effect → ComponentState
  | Effect.setIsLoading b => { s with isLoading := b }
  | Effect.setError e => { s with error := e }
  | _ => s

/-- Replay a list of effects from a starting state. -/
def runEffects (s : ComponentState) (effs : List Effect) : ComponentState :=
  effs.foldl applyEffect s

/-- The navigation targets occurring in an effect list, in order. -/
def navigations (effs : List Effect) : List String :=
  effs.filterMap fun e =>
    match e with
    | Effect.navigate p => some p
    | _ => none

/-- The upload-service calls occurring in an effect list, in order. -/
def serviceCalls (effs : List Effect) : List UploadForm :=
  effs.filterMap fun e =>
    match e with
    | Effect.callService payload => some payload
    | _ => none

/-- The component state in force at the moment of the first
`uploadFileStep` call in an effect list (i.e. just before the `await`
suspends), obtained by replaying the effects that precede it; `none` when
the list contains no service call. -/
def stateAtServiceCall (s : ComponentState) : List Effect → Option ComponentState
  | [] => none
  | e :: rest =>
    match e with
    | Effect.callService _ => some s
    | _ => stateAtServiceCall (applyEffect s e) rest

/-- The submit control rendered by `UploadMain`: the `BetterButton`'s
`active` prop and its `Text` label. -/
structure SubmitControl where
  active : Bool
  label : String
deriving DecidableEq, Repr

/-- The view rendered by `UploadMain`: either the error affordance (a
`Link` back to `/` showing the error text, rendered when `error` is set)
or the form (the `Upload` picker with its `fileName`, the model toggle,
and the submit control). -/
inductive View where
  | errorView (message : String)
  | formView (fileName : String) (model : Model) (submit : SubmitControl)
deriving DecidableEq, Repr

/-- The render function of `UploadMain.tsx`: `if (error) return <Link …>
{error} </Link>`, otherwise the form with
`<BetterButton … active={!!file && !isLoading}>` and label
`{isLoading ? "Uploading..." : "Run"}`. -/
def render (s : ComponentState) : View :=
  match s.error with
  | some e => View.errorView e
  | none =>
    View.formView s.fileName s.model
      { active := s.file.isSome && !s.isLoading,
        label := if s.isLoading then "Uploading..." else "Run" }

/-- The `active` prop of the submit `BetterButton`, as computed at render
time in `UploadMain.tsx`: `!!file && !isLoading`. -/
def submitControlActive (s : ComponentState) : Bool :=
  s.file.isSome && !s.isLoading

/-- Modelled from the spec: the `BetterButton` component
(`src/apps/web/src/components/BetterButton/BetterButton.tsx` is not under
`src/`; only its use site in `UploadMain.tsx` is).  Per the spec, "the
submit control is disabled while `isSubmitting` is true", i.e. a click on
the control fires its handler only when the `active` prop is true;
clicking a disabled control performs no effects. -/
def betterButtonClick (active : Bool) (clickEffects : List Effect) :
    List Effect :=
  if active then clickEffects else []

/-- A user click on the submit control in state `s`, given the service
result the submission would see: the `BetterButton` fires `handleRun`
only when its `active` prop is true. -/
def submitClick (s : ComponentState) (result : ServiceResult) :
    List Effect :=
  betterButtonClick (submitControlActive s) (handleRun s result)

/-- One row of the feature table in `ModelTable.tsx`: the row header and
the two tier cells. -/
structure TableRow where
  feature : String
  fast : String
  highQuality : String
deriving DecidableEq, Repr

/-- The fixed table returned by `ModelTable`: the header cells and the
body rows. -/
structure FeatureTable where
  header : List String
  rows : List TableRow
deriving DecidableEq, Repr

/-- `ModelTable` from `ModelTable.tsx`: a zero-argument component
returning the fixed table with its literal header and cell values. -/
def ModelTable : FeatureTable :=
  { header := ["FEATURE", "FAST MODEL", "HIGH QUALITY MODEL"],
    rows :=
      [{ feature := "Table extraction", fast := "✓", highQuality := "✓" },
       { feature := "Image processing", fast := "Basic", highQuality := "Advanced" },
       { feature := "Formula OCR", fast := "-", highQuality := "✓" },
       { feature := "Processing speed", fast := "Very fast", highQuality := "Moderate" },
       { feature := "Accuracy", fast := "Good", highQuality := "Excellent" }] }

end Chunkr

namespace Chunkr

/-- C1: for every submission in which a file is selected and the upload
service resolves successfully with an outcome carrying task identifier
`t`, `handleRun` triggers navigation to exactly
`"/status?taskId=" ++ t` (and nothing else), and `isLoading` is cleared
on this path. -/
theorem submit_success_navigates (s : ComponentState) (f : SelectedFile)
    (t : String) (h : s.file = some f) :
    navigations (handleRun s (ServiceResult.ok { task_id := t })) =
      ["/status?taskId=" ++ t] ∧
    (runEffects s (handleRun s (ServiceResult.ok { task_id := t }))).isLoading
      = false := by
  simp [handleRun, h, navigations, runEffects, applyEffect]

/-- Witness for C1 at the concrete state with file `report.pdf` and task
identifier `"abc123"`: the sole navigation target is
`"/status?taskId=abc123"`. -/
theorem submit_success_navigates_witness :
    ({ file := some { name := "report.pdf" }, fileName := "report.pdf",
       model := Model.Fast, isLoading := false, error := none } :
       ComponentState).file = some { name := "report.pdf" } ∧
    (navigations (handleRun
        { file := some { name := "report.pdf" }, fileName := "report.pdf",
          model := Model.Fast, isLoading := false, error := none }
        (ServiceResult.ok { task_id := "abc123" })) =
          ["/status?taskId=abc123"] ∧
     (runEffects
        { file := some { name := "report.pdf" }, fileName := "report.pdf",
          model := Model.Fast, isLoading := false, error := none }
        (handleRun
          { file := some { name := "report.pdf" }, fileName := "report.pdf",
            model := Model.Fast, isLoading := false, error := none }
          (ServiceResult.ok { task_id := "abc123" }))).isLoading = false) :=
  ⟨rfl, submit_success_navigates _ { name := "report.pdf" } "abc123" rfl⟩

end Chunkr

namespace Chunkr

/-- C2: for every submission in which a file is selected and the upload
service call rejects, `handleRun` sets the error to exactly
`"Failed to upload file. Please try again later."` regardless of the
rejection reason, clears `isLoading`, and performs no navigation. -/
theorem submit_failure_sets_error (s : ComponentState) (f : SelectedFile)
    (reason : String) (h : s.file = some f) :
    (runEffects s (handleRun s (ServiceResult.err reason))).error =
      some "Failed to upload file. Please try again later." ∧
    (runEffects s (handleRun s (ServiceResult.err reason))).isLoading = false ∧
    navigations (handleRun s (ServiceResult.err reason)) = [] := by
  simp [handleRun, h, navigations, runEffects, applyEffect]

/-- Witness for C2 at the concrete state with file `report.pdf` and a
rejection with reason `"network down"`. -/
theorem submit_failure_sets_error_witness :
    ({ file := some { name := "report.pdf" }, fileName := "report.pdf",
       model := Model.HighQuality, isLoading := false, error := none } :
       ComponentState).file = some { name := "report.pdf" } ∧
    ((runEffects
        { file := some { name := "report.pdf" }, fileName := "report.pdf",
          model := Model.HighQuality, isLoading := false, error := none }
        (handleRun
          { file := some { name := "report.pdf" }, fileName := "report.pdf",
            model := Model.HighQuality, isLoading := false, error := none }
          (ServiceResult.err "network down"))).error =
            some "Failed to upload file. Please try again later." ∧
     (runEffects
        { file := some { name := "report.pdf" }, fileName := "report.pdf",
          model := Model.HighQuality, isLoading := false, error := none }
        (handleRun
          { file := some { name := "report.pdf" }, fileName := "report.pdf",
            model := Model.HighQuality, isLoading := false, error := none }
          (ServiceResult.err "network down"))).isLoading = false ∧
     navigations (handleRun
        { file := some { name := "report.pdf" }, fileName := "report.pdf",
          model := Model.HighQuality, isLoading := false, error := none }
        (ServiceResult.err "network down")) = []) :=
  ⟨rfl, submit_failure_sets_error _ { name := "report.pdf" } "network down" rfl⟩

/-- C3: for every state in which no file is selected, `handleRun` performs
only the `console.error` log: the effect list is exactly that one log
effect, replaying it leaves the whole state unchanged, and there is no
service call and no navigation. -/
theorem submit_no_file_noop (s : ComponentState) (r : ServiceResult)
    (h : s.file = none) :
    handleRun s r = [Effect.consoleError "No file uploaded"] ∧
    runEffects s (handleRun s r) = s ∧
    serviceCalls (handleRun s r) = [] ∧
    navigations (handleRun s r) = [] := by
  simp [handleRun, h, runEffects, applyEffect, serviceCalls, navigations]

/-- Witness for C3 at the initial state (no file selected). -/
theorem submit_no_file_noop_witness :
    initialState.file = none ∧
    (handleRun initialState (ServiceResult.ok { task_id := "abc123" }) =
       [Effect.consoleError "No file uploaded"] ∧
     runEffects initialState
        (handleRun initialState (ServiceResult.ok { task_id := "abc123" })) =
       initialState ∧
     serviceCalls
        (handleRun initialState (ServiceResult.ok { task_id := "abc123" })) = [] ∧
     navigations
        (handleRun initialState (ServiceResult.ok { task_id := "abc123" })) = []) :=
  ⟨rfl, submit_no_file_noop initialState (ServiceResult.ok { task_id := "abc123" }) rfl⟩

/-- C4: for every submission started with a file selected, the state in
force at the service call has `isLoading = true` and the error cleared,
and after the whole handler resolves `isLoading` is `false` again, on both
the success and the failure path. -/
theorem submit_isLoading_lifecycle (s : ComponentState) (f : SelectedFile)
    (r : ServiceResult) (h : s.file = some f) :
    (∃ s', stateAtServiceCall s (handleRun s r) = some s' ∧
       s'.isLoading = true ∧ s'.error = none) ∧
    (runEffects s (handleRun s r)).isLoading = false := by
  cases r <;>
    exact ⟨⟨{ s with isLoading := true, error := none },
            by simp [handleRun, h, stateAtServiceCall, applyEffect], rfl, rfl⟩,
           by simp [handleRun, h, runEffects, applyEffect]⟩

/-- Witness for C4 at a concrete state with a file selected and a
rejecting service call. -/
theorem submit_isLoading_lifecycle_witness :
    ({ file := some { name := "a.pdf" }, fileName := "a.pdf",
       model := Model.Fast, isLoading := false, error := none } :
       ComponentState).file = some { name := "a.pdf" } ∧
    ((∃ s', stateAtServiceCall
        { file := some { name := "a.pdf" }, fileName := "a.pdf",
          model := Model.Fast, isLoading := false, error := none }
        (handleRun
          { file := some { name := "a.pdf" }, fileName := "a.pdf",
            model := Model.Fast, isLoading := false, error := none }
          (ServiceResult.err "boom")) = some s' ∧
        s'.isLoading = true ∧ s'.error = none) ∧
     (runEffects
        { file := some { name := "a.pdf" }, fileName := "a.pdf",
          model := Model.Fast, isLoading := false, error := none }
        (handleRun
          { file := some { name := "a.pdf" }, fileName := "a.pdf",
            model := Model.Fast, isLoading := false, error := none }
          (ServiceResult.err "boom"))).isLoading = false) :=
  ⟨rfl, submit_isLoading_lifecycle _ { name := "a.pdf" } (ServiceResult.err "boom") rfl⟩

/-- C5: while `isLoading` is true the submit control's `active` prop is
false, so a click on it fires no effects at all - in particular no second
upload-service call can be started until the first resolves. -/
theorem no_overlapping_submission (s : ComponentState) (r : ServiceResult)
    (h : s.isLoading = true) :
    submitControlActive s = false ∧
    submitClick s r = [] ∧
    serviceCalls (submitClick s r) = [] := by
  simp [submitControlActive, submitClick, betterButtonClick, h, serviceCalls]

/-- Witness for C5 at a concrete mid-submission state
(`isLoading = true` with a file selected). -/
theorem no_overlapping_submission_witness :
    ({ file := some { name := "a.pdf" }, fileName := "a.pdf",
       model := Model.Fast, isLoading := true, error := none } :
       ComponentState).isLoading = true ∧
    (submitControlActive
        { file := some { name := "a.pdf" }, fileName := "a.pdf",
          model := Model.Fast, isLoading := true, error := none } = false ∧
     submitClick
        { file := some { name := "a.pdf" }, fileName := "a.pdf",
          model := Model.Fast, isLoading := true, error := none }
        (ServiceResult.ok { task_id := "t1" }) = [] ∧
     serviceCalls (submitClick
        { file := some { name := "a.pdf" }, fileName := "a.pdf",
          model := Model.Fast, isLoading := true, error := none }
        (ServiceResult.ok { task_id := "t1" })) = []) :=
  ⟨rfl, no_overlapping_submission _ (ServiceResult.ok { task_id := "t1" }) rfl⟩

end Chunkr

namespace Chunkr

/-- C6: in every rendered non-error state the view is the form, whose
submit control is active exactly when a file is selected and `isLoading`
is false, with label `"Uploading..."` when `isLoading` is true and
`"Run"` otherwise. -/
theorem submit_control_enabled_iff (s : ComponentState) (h : s.error = none) :
    ∃ sc : SubmitControl,
      render s = View.formView s.fileName s.model sc ∧
      (sc.active = true ↔ (s.file.isSome = true ∧ s.isLoading = false)) ∧
      (s.isLoading = true → sc.label = "Uploading...") ∧
      (s.isLoading = false → sc.label = "Run") := by
  refine ⟨{ active := s.file.isSome && !s.isLoading,
            label := if s.isLoading then "Uploading..." else "Run" },
          ?_, ?_, ?_, ?_⟩
  · simp [render, h]
  · cases hl : s.isLoading <;> simp [hl]
  · intro hl; simp [hl]
  · intro hl; simp [hl]

/-- Witness for C6 at a concrete non-error state with a file selected and
no submission in flight: the control is active with label `"Run"`. -/
theorem submit_control_enabled_iff_witness :
    ({ file := some { name := "report.pdf" }, fileName := "report.pdf",
       model := Model.Fast, isLoading := false, error := none } :
       ComponentState).error = none ∧
    (∃ sc : SubmitControl,
      render { file := some { name := "report.pdf" }, fileName := "report.pdf",
               model := Model.Fast, isLoading := false, error := none } =
        View.formView "report.pdf" Model.Fast sc ∧
      (sc.active = true ↔
        ((some { name := "report.pdf" } : Option SelectedFile).isSome = true ∧
         false = false)) ∧
      (false = true → sc.label = "Uploading...") ∧
      (false = false → sc.label = "Run")) :=
  ⟨rfl, submit_control_enabled_iff
    { file := some { name := "report.pdf" }, fileName := "report.pdf",
      model := Model.Fast, isLoading := false, error := none } rfl⟩

/-- C7: for every state, `handleModelToggle` applied twice returns the
state (hence the tier) to its original value, and a single application
flips the tier to the other enumeration value. -/
theorem toggleTier_involutive (s : ComponentState) :
    handleModelToggle (handleModelToggle s) = s ∧
    (handleModelToggle s).model ≠ s.model := by
  cases s with
  | mk file fileName model isLoading error =>
    cases model <;> simp [handleModelToggle]

/-- C8: for every file `f`, `handleFileUpload` sets the displayed name to
exactly `f.name` and records the file, and a subsequent `handleFileRemove`
clears both the selected file and the displayed name. -/
theorem selectFile_removeFile_roundtrip (s : ComponentState)
    (f : SelectedFile) :
    (handleFileUpload s f).fileName = f.name ∧
    (handleFileUpload s f).file = some f ∧
    (handleFileRemove (handleFileUpload s f)).file = none ∧
    (handleFileRemove (handleFileUpload s f)).fileName = "" := by
  simp [handleFileUpload, handleFileRemove]

/-- C9 counterexample: the claim states the Formula OCR row's literal
fast-tier value is the en dash `"–"`, but in `ModelTable.tsx` that cell
is the ASCII hyphen-minus `"-"`, a different string. -/
theorem modelTable_formulaOCR_dash_counterexample :
    ModelTable.rows.get? 2 =
      some { feature := "Formula OCR", fast := "-", highQuality := "✓" } ∧
    ("-" : String) ≠ "–" :=
  ⟨rfl, by decide⟩

/-- C9 amended: `ModelTable` takes no inputs and always produces the same
fixed table: one header row with three columns and exactly five data rows
with literal values Table extraction (✓/✓), Image processing
(Basic/Advanced), Formula OCR (hyphen-minus "-" over ✓ - the ASCII
hyphen, not an en dash), Processing speed (Very fast/Moderate), Accuracy
(Good/Excellent). -/
theorem modelTable_fixed :
    ModelTable.header = ["FEATURE", "FAST MODEL", "HIGH QUALITY MODEL"] ∧
    ModelTable.rows.length = 5 ∧
    ModelTable.rows =
      [{ feature := "Table extraction", fast := "✓", highQuality := "✓" },
       { feature := "Image processing", fast := "Basic", highQuality := "Advanced" },
       { feature := "Formula OCR", fast := "-", highQuality := "✓" },
       { feature := "Processing speed", fast := "Very fast", highQuality := "Moderate" },
       { feature := "Accuracy", fast := "Good", highQuality := "Excellent" }] :=
  ⟨rfl, rfl, rfl⟩

/-- C10: on every path through `handleRun` - the no-file guard, the
success path and the failure path - the `file`, `fileName` and `model`
fields are unchanged after the handler's effects are applied. -/
theorem submit_preserves_selection (s : ComponentState) (r : ServiceResult) :
    (runEffects s (handleRun s r)).file = s.file ∧
    (runEffects s (handleRun s r)).fileName = s.fileName ∧
    (runEffects s (handleRun s r)).model = s.model := by
  cases hf : s.file <;> cases r <;>
    simp [handleRun, hf, runEffects, applyEffect]

end Chunkr
